import Mathlib

/-!
Verification of the Node RPC Bridge core of the DREP2.0 GraphQL API server
(`internal/repository/rpc/utils.go`): the ABI string decoder
`parseAbiString`, the gas-price oracle `GasPrice`, and the gas estimator
`GasEstimate` / `GasEstimateWithBlock`.

Modelling conventions:
- byte buffers (`[]byte`) are `List Nat`, each entry one byte value;
- `big.Int` values produced by `SetBytes` are `Nat` (always non-negative);
- the Go `int` type (64-bit, two's complement, wrapping conversion from
  `uint64`) is `Int` together with `goInt64OfNat` which performs the
  wrap-around of `int(x.Uint64())`;
- a Go slice expression `data[a:b]` is `goSlice`, returning `none` exactly
  when Go would panic with a slice-bounds-out-of-range error;
- a function that can panic returns `Option`, with `none` for a panic;
- fallible operations return `Except`, with the error payloads the Go code
  builds with `fmt.Errorf`;
- the RPC transport is a parameter: for `GasPrice` it maps the (0-based)
  attempt index to the reply of that attempt, and for the estimator it is a
  pair of replies, one per call shape.
-/

namespace DrepRpc

/-- Big-endian interpretation of a byte list, the model of
`new(big.Int).SetBytes(bs)`. -/
def beBytesToNat (bs : List Nat) : Nat :=
  bs.foldl (fun acc b => acc * 256 + b) 0

/-- Wrapping conversion of a non-negative integer to the Go `int` type on a
64-bit platform: the model of `int(x.Uint64())` and of overflowing `int`
addition. -/
def goInt64OfNat (n : Nat) : Int :=
  let m : Nat := n % 2 ^ 64
  if m < 2 ^ 63 then (m : Int) else (m : Int) - 2 ^ 64

/-- The Go slice expression `data[a:b]`: defined (`some`) exactly when
`0 ≤ a ≤ b ≤ len(data)`, otherwise Go panics (`none`). -/
def goSlice (data : List Nat) (a b : Int) : Option (List Nat) :=
  if 0 ≤ a ∧ a ≤ b ∧ b ≤ (data.length : Int) then
    some ((data.drop a.toNat).take (b - a).toNat)
  else
    none

/-- The errors `parseAbiString` can build, one constructor per
`fmt.Errorf` site, carrying the dynamic data the message interpolates. -/
inductive AbiError where
  /-- message: abi encoded string expected, only %d bytes received -/
  | malformedAbiPayload (bytesReceived : Nat)
  /-- message: string offset larger than int64: %v -/
  | offsetOverflow (offset : Nat)
  /-- message: string length larger than int64: %v -/
  | lengthOverflow (length : Nat)
deriving DecidableEq

/-- Whether an `AbiError` is one of the two 63-bit range failures the spec
groups under the name `AbiValueOverflow`. -/
def AbiError.isAbiValueOverflow : AbiError → Bool
  | .offsetOverflow _ => true
  | .lengthOverflow _ => true
  | .malformedAbiPayload _ => false

/-- Model of `parseAbiString` from `internal/repository/rpc/utils.go`.
`none` models a Go runtime panic (out-of-range slice); `some (Except.error e)`
models returning a non-nil error; `some (Except.ok s)` models returning the
byte content of the decoded string (`string(bytes)` in Go keeps raw bytes).
`bigOffset.BitLen() > 63` holds exactly when the value is `≥ 2 ^ 63`. -/
def parseAbiString (data : List Nat) : Option (Except AbiError (List Nat)) :=
  if data.length < 96 then
    some (.error (.malformedAbiPayload data.length))
  else
    let bigOffset := beBytesToNat (data.take 32)
    if 2 ^ 63 ≤ bigOffset then
      some (.error (.offsetOverflow bigOffset))
    else
      let offset : Int := goInt64OfNat (bigOffset + 32)
      match goSlice data (offset - 32) offset with
      | none => none
      | some lenBytes =>
        let bigLength := beBytesToNat lenBytes
        if 2 ^ 63 ≤ bigLength then
          some (.error (.lengthOverflow bigLength))
        else
          match goSlice data offset (goInt64OfNat (offset.toNat + bigLength)) with
          | none => none
          | some strBytes => some (.ok strBytes)

/-- Model of `TokenNameAttempt`: a successful contract call hands the raw
reply buffer to `parseAbiString`; a failed call surfaces the error. -/
def TokenNameAttempt (callContract : Except String (List Nat)) :
    Option (Except (Sum String AbiError) (List Nat)) :=
  match callContract with
  | .error e => some (.error (.inl e))
  | .ok data =>
    match parseAbiString data with
    | none => none
    | some (.error e) => some (.error (.inr e))
    | some (.ok s) => some (.ok s)

/-- The constant `maxAcceptedGasPrice = big.NewInt(1_000_000_000_000_000_000)`. -/
def maxAcceptedGasPrice : Nat := 1000000000000000000

/-- The fixed backoff interval of the gas-price retry loop, in milliseconds
(`time.Sleep(100 * time.Millisecond)`). -/
def retrySleepMilliseconds : Nat := 100

/-- Observable outcome of one `GasPrice` invocation: the returned value or
error, together with the number of RPC calls issued (`calls`) and the number
of 100ms sleeps executed (`sleeps`). -/
inductive GasPriceOutcome where
  /-- the RPC call returned a non-nil error, surfaced verbatim -/
  | transportError (e : String) (calls sleeps : Nat)
  /-- error: gas price not available, please try again later -/
  | unavailable (price : Nat) (calls sleeps : Nat)
  /-- a price at or below the ceiling, returned with a nil error -/
  | ok (price : Nat) (calls sleeps : Nat)
deriving DecidableEq

/-- Number of RPC calls the run issued. -/
def GasPriceOutcome.callCount : GasPriceOutcome → Nat
  | .transportError _ c _ => c
  | .unavailable _ c _ => c
  | .ok _ c _ => c

/-- Number of 100ms sleeps the run executed. -/
def GasPriceOutcome.sleepCount : GasPriceOutcome → Nat
  | .transportError _ _ s => s
  | .unavailable _ _ s => s
  | .ok _ _ s => s

/-- One iteration of the `GasPrice` retry loop and its continuation.
`call i` is the transport reply to the `i`-th RPC attempt (0-based).  In the
Go loop the counter `try` starts at 0 and is incremented once per retried
iteration, so at the `i`-th iteration `try = i`; the guard `try > 2` is
therefore `i > 2`, which we carry as the structurally decreasing remaining
count `r = 3 - i` (the guard fires exactly when `r = 0`).  Each retried
iteration executes `try++; time.Sleep(100ms)`, hence at the `i`-th iteration
`i` calls have completed and `i` sleeps have been executed before it. -/
def gasPriceLoop (call : Nat → Except String Nat) (i r : Nat) : GasPriceOutcome :=
  match call i with
  | .error e => .transportError e (i + 1) i
  | .ok price =>
    if price ≤ maxAcceptedGasPrice then
      .ok price (i + 1) i
    else
      match r with
      | 0 => .unavailable price (i + 1) i
      | r' + 1 => gasPriceLoop call (i + 1) r'

/-- Model of `GasPrice` from `internal/repository/rpc/utils.go`: run the
retry loop from attempt 0 with `try = 0`, i.e. remaining count `3`. -/
def GasPrice (call : Nat → Except String Nat) : GasPriceOutcome :=
  gasPriceLoop call 0 3

/-- Model of Go `strings.Contains s sub` (true iff `sub` occurs as a
contiguous substring of `s`), on byte-for-byte character lists. -/
def listHasSeq (s sub : List Char) : Bool :=
  match s with
  | [] => sub.isEmpty
  | _ :: rest => (sub.isPrefixOf s || listHasSeq rest sub : Bool)

/-- Go `strings.Contains` on strings. -/
def goStringContains (s sub : String) : Bool :=
  listHasSeq s.toList sub.toList

/-- Transport replies for the two call shapes the estimator can issue:
`primary` answers `ftm_estimateGas(trx)`, `withBlock` answers
`ftm_estimateGas(trx, BlockTypeLatest)`.  The probe argument is fixed for a
given invocation, so it is left implicit. -/
structure EstimateTransport where
  primary : Except String Nat
  withBlock : Except String Nat

/-- Observable outcome of a gas-estimation invocation: the result plus how
many calls of each shape were issued. -/
structure EstimateOutcome where
  result : Except String Nat
  primaryCalls : Nat
  withBlockCalls : Nat

/-- Model of `GasEstimateWithBlock`: one call with the appended
`BlockTypeLatest` argument; its error or value is returned unchanged. -/
def GasEstimateWithBlock (t : EstimateTransport) : EstimateOutcome :=
  match t.withBlock with
  | .error e => ⟨.error e, 0, 1⟩
  | .ok v => ⟨.ok v, 0, 1⟩

/-- Model of `GasEstimate`: issue the primary call; on an error whose
message contains "missing value", fall back to `GasEstimateWithBlock`;
any other error is returned unchanged. -/
def GasEstimate (t : EstimateTransport) : EstimateOutcome :=
  match t.primary with
  | .error e =>
    if goStringContains e "missing value" then
      let fb := GasEstimateWithBlock t
      ⟨fb.result, fb.primaryCalls + 1, fb.withBlockCalls⟩
    else
      ⟨.error e, 1, 0⟩
  | .ok v => ⟨.ok v, 1, 0⟩

/-- Decoder described by the specification text, written from its words:
interpret the first 32 bytes as a big-endian "string offset", add 32 to get
the absolute start of the string data, interpret the 32 bytes immediately
preceding that start as the "string length", and slice exactly that many
bytes from the start. -/
def specDecodeAbiString (data : List Nat) : List Nat :=
  let off := beBytesToNat (data.take 32)
  let start := off + 32
  let len := beBytesToNat ((data.drop (start - 32)).take 32)
  (data.drop start).take len

/-- The in-bounds precondition on an ABI reply buffer: at least 96 bytes,
the offset field passes the 63-bit check, the length word and the string
body both lie inside the buffer.  The bound `data.length < 2 ^ 63` is the
platform fact that a Go slice length always fits in a non-negative `int`. -/
def wellFormedAbiBuffer (data : List Nat) : Prop :=
  data.length < 2 ^ 63 ∧ 96 ≤ data.length ∧
  beBytesToNat (data.take 32) < 2 ^ 63 ∧
  beBytesToNat (data.take 32) + 32 ≤ data.length ∧
  beBytesToNat (data.take 32) + 32 +
    beBytesToNat ((data.drop (beBytesToNat (data.take 32))).take 32) ≤ data.length

instance (data : List Nat) : Decidable (wellFormedAbiBuffer data) := by
  unfold wellFormedAbiBuffer
  exact inferInstance

/-- A 96-byte buffer whose offset field decodes to 96, sending the length
word read past the end of the buffer. -/
def panicBuf : List Nat := List.replicate 31 0 ++ [96] ++ List.replicate 64 0

/-- The 96-byte buffer encoding offset 0x20, length 5 and the ASCII bytes
of "hello" padded with zeros to a 32-byte word. -/
def helloBuf : List Nat :=
  List.replicate 31 0 ++ [32] ++ List.replicate 31 0 ++ [5] ++
    [104, 101, 108, 108, 111] ++ List.replicate 27 0

/-- A 96-byte buffer whose offset field decodes to `2 ^ 63`, failing the
63-bit check on the offset. -/
def hugeOffsetBuf : List Nat :=
  List.replicate 24 0 ++ [128] ++ List.replicate 7 0 ++ List.replicate 64 0

/-- A 96-byte buffer with offset field 0x20 whose length field decodes to
`2 ^ 63`, failing the 63-bit check on the length. -/
def hugeLengthBuf : List Nat :=
  List.replicate 31 0 ++ [32] ++ List.replicate 24 0 ++ [128] ++
    List.replicate 7 0 ++ List.replicate 32 0

/-- A transport whose every reply is one above the accepted ceiling. -/
def alwaysHighTransport : Nat → Except String Nat :=
  fun _ => .ok (maxAcceptedGasPrice + 1)

/-- A transport that fails at the transport level on every call. -/
def failingTransport : Nat → Except String Nat :=
  fun _ => .error "connection refused"

/-- A transport replying one above the ceiling on attempt 0 and an accepted
price on every later attempt. -/
def highThenOkTransport : Nat → Except String Nat :=
  fun i => if i = 0 then .ok (maxAcceptedGasPrice + 1) else .ok 42

/-- An estimator transport that rejects the primary call shape with a
missing-value message and accepts the call shape with the block argument. -/
def missingValueTransport : EstimateTransport :=
  ⟨.error "missing value for required argument", .ok 21000⟩

/-- An estimator transport that rejects the primary call shape with an
unrelated error. -/
def revertingTransport : EstimateTransport :=
  ⟨.error "execution reverted", .ok 21000⟩

/-- An estimator transport where both call shapes fail, the primary one
with a missing-value message. -/
def doubleFailTransport : EstimateTransport :=
  ⟨.error "missing value for required argument", .error "out of bounds block"⟩

theorem goInt64OfNat_of_lt {n : Nat} (h : n < 2 ^ 63) : goInt64OfNat n = (n : Int) := by
  have h64 : n < 2 ^ 64 := lt_of_lt_of_le h (by norm_num)
  simp only [goInt64OfNat, Nat.mod_eq_of_lt h64, if_pos h]

theorem goSlice_natCast {data : List Nat} {a b : Nat} (hab : a ≤ b)
    (hb : b ≤ data.length) :
    goSlice data (a : Int) (b : Int) = some ((data.drop a).take (b - a)) := by
  unfold goSlice
  rw [if_pos ⟨by positivity, by exact_mod_cast hab, by exact_mod_cast hb⟩]
  have h1 : ((a : Int)).toNat = a := Int.toNat_natCast a
  have h2 : ((b : Int) - (a : Int)).toNat = b - a := by omega
  rw [h1, h2]

theorem goSlice_none_of_lt {data : List Nat} {a b : Int}
    (h : (data.length : Int) < b) : goSlice data a b = none := by
  unfold goSlice
  rw [if_neg]
  intro hcon
  omega

/-- Shared unfolding of `parseAbiString` on a buffer whose length word lies
inside the buffer: the run reaches the 63-bit check on the declared length,
the length word being bytes `offset .. offset + 31`. -/
theorem parseAbiString_after_offset {data : List Nat}
    (hlen : data.length < 2 ^ 63) (h96 : 96 ≤ data.length)
    (ho : beBytesToNat (data.take 32) < 2 ^ 63)
    (hob : beBytesToNat (data.take 32) + 32 ≤ data.length) :
    parseAbiString data =
      (if 2 ^ 63 ≤ beBytesToNat ((data.drop (beBytesToNat (data.take 32))).take 32) then
        some (.error (.lengthOverflow
          (beBytesToNat ((data.drop (beBytesToNat (data.take 32))).take 32))))
      else
        match goSlice data ((beBytesToNat (data.take 32) + 32 : Nat) : Int)
            (goInt64OfNat (beBytesToNat (data.take 32) + 32 +
              beBytesToNat ((data.drop (beBytesToNat (data.take 32))).take 32))) with
        | none => none
        | some strBytes => some (.ok strBytes)) := by
  simp only [parseAbiString]
  rw [if_neg (by omega)]
  rw [if_neg (not_le.mpr ho)]
  rw [goInt64OfNat_of_lt (by omega : beBytesToNat (data.take 32) + 32 < 2 ^ 63)]
  have hcast : ((beBytesToNat (data.take 32) + 32 : Nat) : Int) - 32 =
      ((beBytesToNat (data.take 32) : Nat) : Int) := by push_cast; ring
  rw [hcast]
  rw [goSlice_natCast (by omega) (by omega)]
  have h32 : beBytesToNat (data.take 32) + 32 - beBytesToNat (data.take 32) = 32 := by omega
  rw [h32]
  dsimp only
  rw [Int.toNat_natCast]

/-- Shared unfolding: on a buffer satisfying the in-bounds precondition the
decoder returns the slice of declared length starting right after the length
word. -/
theorem parseAbiString_eq_of_wellFormed {data : List Nat}
    (h : wellFormedAbiBuffer data) :
    parseAbiString data =
      some (.ok ((data.drop (beBytesToNat (data.take 32) + 32)).take
        (beBytesToNat ((data.drop (beBytesToNat (data.take 32))).take 32)))) := by
  obtain ⟨hlen, h96, ho, hob, hfit⟩ := h
  have hL : beBytesToNat ((data.drop (beBytesToNat (data.take 32))).take 32) < 2 ^ 63 := by
    omega
  rw [parseAbiString_after_offset hlen h96 ho hob]
  rw [if_neg (not_le.mpr hL)]
  rw [goInt64OfNat_of_lt (by omega)]
  rw [goSlice_natCast (by omega) (by omega)]
  rw [Nat.add_sub_cancel_left]

/-- Step lemma: a failed RPC call aborts the loop at once. -/
theorem gasPriceLoop_err (call : Nat → Except String Nat) (i r : Nat) (e : String)
    (hc : call i = .error e) :
    gasPriceLoop call i r = .transportError e (i + 1) i := by
  unfold gasPriceLoop
  rw [hc]

/-- Step lemma: an accepted price ends the loop with a nil error. -/
theorem gasPriceLoop_accept (call : Nat → Except String Nat) (i r p : Nat)
    (hc : call i = .ok p) (hp : p ≤ maxAcceptedGasPrice) :
    gasPriceLoop call i r = .ok p (i + 1) i := by
  unfold gasPriceLoop
  rw [hc]
  dsimp only
  rw [if_pos hp]

/-- Step lemma: an implausible price with remaining budget sleeps and
retries. -/
theorem gasPriceLoop_retry (call : Nat → Except String Nat) (i r p : Nat)
    (hc : call i = .ok p) (hp : maxAcceptedGasPrice < p) :
    gasPriceLoop call i (r + 1) = gasPriceLoop call (i + 1) r := by
  conv_lhs => unfold gasPriceLoop
  rw [hc]
  dsimp only
  rw [if_neg (not_le.mpr hp)]

/-- Step lemma: an implausible price with the budget exhausted fails with
the gas-price-not-available error. -/
theorem gasPriceLoop_exhaust (call : Nat → Except String Nat) (i p : Nat)
    (hc : call i = .ok p) (hp : maxAcceptedGasPrice < p) :
    gasPriceLoop call i 0 = .unavailable p (i + 1) i := by
  unfold gasPriceLoop
  rw [hc]
  dsimp only
  rw [if_neg (not_le.mpr hp)]

/-- Any price the loop returns with a nil error passed the ceiling test. -/
theorem gasPriceLoop_ok_le (call : Nat → Except String Nat) :
    ∀ r i p c s, gasPriceLoop call i r = .ok p c s → p ≤ maxAcceptedGasPrice := by
  intro r
  induction r with
  | zero =>
    intro i p c s h
    unfold gasPriceLoop at h
    split at h
    · exact absurd h (by simp)
    · split at h
      · rename_i price hle
        cases h
        exact hle
      · exact absurd h (by simp)
  | succ r ih =>
    intro i p c s h
    unfold gasPriceLoop at h
    split at h
    · exact absurd h (by simp)
    · split at h
      · rename_i price hle
        cases h
        exact hle
      · exact ih (i + 1) p c s h

/-- C3: for every input buffer (including the empty one) shorter than 96
bytes, `parseAbiString` fails with the malformed-payload error reporting the
actual byte count, and the result never depends on the buffer's content, so
no buffer index is read. -/
theorem parseAbiString_short_rejects :
    (∀ data : List Nat, data.length < 96 →
      parseAbiString data = some (.error (.malformedAbiPayload data.length))) ∧
    (∀ data data' : List Nat, data.length < 96 → data.length = data'.length →
      parseAbiString data = parseAbiString data') := by
  constructor
  · intro data h
    simp only [parseAbiString, if_pos h]
  · intro data data' h he
    simp only [parseAbiString, if_pos h, if_pos (he ▸ h), he]

/-- Closed instance of the C3 theorem: the empty buffer and a 95-byte
buffer are rejected with their byte counts. -/
theorem parseAbiString_short_rejects_witness :
    parseAbiString [] = some (.error (.malformedAbiPayload 0)) ∧
    parseAbiString (List.replicate 95 7) = some (.error (.malformedAbiPayload 95)) := by
  constructor
  · simpa using parseAbiString_short_rejects.1 [] (by decide)
  · simpa using parseAbiString_short_rejects.1 (List.replicate 95 7) (by decide)

/-- C4: on every well-formed buffer `parseAbiString` returns exactly the
string the specification's algorithm describes (offset word, plus 32, length
word read just before the computed start, then that many bytes), and on the
buffer encoding offset 0x20, length 5, data "hello" it returns exactly the
bytes of "hello". -/
theorem parseAbiString_decodes :
    (∀ data : List Nat, wellFormedAbiBuffer data →
      parseAbiString data = some (.ok (specDecodeAbiString data))) ∧
    parseAbiString helloBuf = some (.ok ("hello".toList.map Char.toNat)) := by
  constructor
  · intro data h
    rw [parseAbiString_eq_of_wellFormed h]
    simp only [specDecodeAbiString, Nat.add_sub_cancel]
  · rfl

/-- Closed instance of the C4 theorem at the "hello" buffer. -/
theorem parseAbiString_decodes_witness :
    parseAbiString helloBuf = some (.ok (specDecodeAbiString helloBuf)) :=
  parseAbiString_decodes.1 helloBuf (by decide)

/-- C5: a buffer of length at least 96 whose offset field is at least
`2 ^ 63` fails with the offset-overflow error carrying the untruncated
value; a buffer whose offset is in 63-bit range and whose length word lies
in the buffer but decodes to at least `2 ^ 63` fails with the
length-overflow error carrying the untruncated value; both errors are the
`AbiValueOverflow` class. -/
theorem parseAbiString_overflow :
    (∀ data : List Nat, 96 ≤ data.length → 2 ^ 63 ≤ beBytesToNat (data.take 32) →
      parseAbiString data = some (.error (.offsetOverflow (beBytesToNat (data.take 32))))) ∧
    (∀ data : List Nat, 96 ≤ data.length → data.length < 2 ^ 63 →
      beBytesToNat (data.take 32) < 2 ^ 63 →
      beBytesToNat (data.take 32) + 32 ≤ data.length →
      2 ^ 63 ≤ beBytesToNat ((data.drop (beBytesToNat (data.take 32))).take 32) →
      parseAbiString data = some (.error (.lengthOverflow
        (beBytesToNat ((data.drop (beBytesToNat (data.take 32))).take 32))))) ∧
    (∀ v : Nat, (AbiError.offsetOverflow v).isAbiValueOverflow = true ∧
      (AbiError.lengthOverflow v).isAbiValueOverflow = true) := by
  refine ⟨?_, ?_, fun v => ⟨rfl, rfl⟩⟩
  · intro data h96 hov
    simp only [parseAbiString]
    rw [if_neg (by omega), if_pos hov]
  · intro data h96 hlen ho hob hL
    rw [parseAbiString_after_offset hlen h96 ho hob]
    rw [if_pos hL]

/-- Closed instance of the C5 theorem on a buffer with offset field `2 ^ 63`
and on a buffer with length field `2 ^ 63`. -/
theorem parseAbiString_overflow_witness :
    parseAbiString hugeOffsetBuf =
      some (.error (.offsetOverflow (beBytesToNat (hugeOffsetBuf.take 32)))) ∧
    parseAbiString hugeLengthBuf =
      some (.error (.lengthOverflow
        (beBytesToNat ((hugeLengthBuf.drop (beBytesToNat (hugeLengthBuf.take 32))).take 32)))) :=
  ⟨parseAbiString_overflow.1 hugeOffsetBuf (by decide) (by decide),
   parseAbiString_overflow.2.1 hugeLengthBuf (by decide) (by decide) (by decide)
     (by decide) (by decide)⟩

/-- C2: under the unstated precondition that offset plus 32 and offset plus
32 plus length both lie within the buffer, `parseAbiString` is total (never
panics); without it there is a 96-byte buffer, offset field 96, passing the
63-bit checks, on which the slice bounds exceed the buffer length and the
function panics instead of returning an error. -/
theorem parseAbiString_totality_bound :
    (∀ data : List Nat, wellFormedAbiBuffer data → (parseAbiString data).isSome = true) ∧
    panicBuf.length = 96 ∧
    beBytesToNat (panicBuf.take 32) = 96 ∧
    beBytesToNat (panicBuf.take 32) < 2 ^ 63 ∧
    parseAbiString panicBuf = none := by
  refine ⟨?_, rfl, rfl, by decide, rfl⟩
  intro data h
  rw [parseAbiString_eq_of_wellFormed h]
  rfl

/-- Closed instance of the C2 totality statement at the "hello" buffer. -/
theorem parseAbiString_totality_bound_witness :
    (parseAbiString helloBuf).isSome = true :=
  parseAbiString_totality_bound.1 helloBuf (by decide)

/-- C1 counterexample: against a transport whose every call succeeds with a
price one above the ceiling, `GasPrice` issues 4 RPC attempts with 3
intervening sleeps before failing with the gas-price-not-available error,
so the claimed count of exactly 3 attempts with 2 waits is false. -/
theorem gasPrice_three_attempts_refuted :
    GasPrice alwaysHighTransport = .unavailable (maxAcceptedGasPrice + 1) 4 3 ∧
    ¬((GasPrice alwaysHighTransport).callCount = 3 ∧
      (GasPrice alwaysHighTransport).sleepCount = 2) :=
  ⟨rfl, by decide⟩

/-- C1 (amended): for every transport that on each of the first four
attempts succeeds with a price strictly above the ceiling, `GasPrice`
issues exactly 4 RPC attempts, with 3 intervening 100ms waits, and then
fails with the gas-price-not-available error. -/
theorem gasPrice_exhausts_after_four (call : Nat → Except String Nat)
    (p0 p1 p2 p3 : Nat)
    (h0 : call 0 = .ok p0) (q0 : maxAcceptedGasPrice < p0)
    (h1 : call 1 = .ok p1) (q1 : maxAcceptedGasPrice < p1)
    (h2 : call 2 = .ok p2) (q2 : maxAcceptedGasPrice < p2)
    (h3 : call 3 = .ok p3) (q3 : maxAcceptedGasPrice < p3) :
    GasPrice call = .unavailable p3 4 3 := by
  unfold GasPrice
  rw [gasPriceLoop_retry call 0 2 p0 h0 q0,
      gasPriceLoop_retry call 1 1 p1 h1 q1,
      gasPriceLoop_retry call 2 0 p2 h2 q2]
  exact gasPriceLoop_exhaust call 3 p3 h3 q3

/-- Closed instance of the amended C1 theorem at the always-high transport. -/
theorem gasPrice_exhausts_after_four_witness :
    GasPrice alwaysHighTransport = .unavailable (maxAcceptedGasPrice + 1) 4 3 :=
  gasPrice_exhausts_after_four alwaysHighTransport _ _ _ _
    rfl (Nat.lt_succ_self _) rfl (Nat.lt_succ_self _)
    rfl (Nat.lt_succ_self _) rfl (Nat.lt_succ_self _)

/-- C6: if every attempt before `n` produced a too-high price and attempt
`n` fails at the transport level, `GasPrice` surfaces that same error
unchanged after exactly `n + 1` calls and `n` sleeps: nothing after the
failing call, no extra backoff wait. -/
theorem gasPrice_transport_error_aborts (call : Nat → Except String Nat)
    (n : Nat) (e : String) (hn : n ≤ 3)
    (hhigh : ∀ k, k < n → ∃ p, call k = .ok p ∧ maxAcceptedGasPrice < p)
    (herr : call n = .error e) :
    GasPrice call = .transportError e (n + 1) n := by
  unfold GasPrice
  interval_cases n
  · exact gasPriceLoop_err call 0 3 e herr
  · obtain ⟨p0, c0, q0⟩ := hhigh 0 (by omega)
    rw [gasPriceLoop_retry call 0 2 p0 c0 q0]
    exact gasPriceLoop_err call 1 2 e herr
  · obtain ⟨p0, c0, q0⟩ := hhigh 0 (by omega)
    obtain ⟨p1, c1, q1⟩ := hhigh 1 (by omega)
    rw [gasPriceLoop_retry call 0 2 p0 c0 q0, gasPriceLoop_retry call 1 1 p1 c1 q1]
    exact gasPriceLoop_err call 2 1 e herr
  · obtain ⟨p0, c0, q0⟩ := hhigh 0 (by omega)
    obtain ⟨p1, c1, q1⟩ := hhigh 1 (by omega)
    obtain ⟨p2, c2, q2⟩ := hhigh 2 (by omega)
    rw [gasPriceLoop_retry call 0 2 p0 c0 q0, gasPriceLoop_retry call 1 1 p1 c1 q1,
        gasPriceLoop_retry call 2 0 p2 c2 q2]
    exact gasPriceLoop_err call 3 0 e herr

/-- Closed instance of the C6 theorem: a transport failing on the very
first call aborts after one call and zero sleeps with the same error. -/
theorem gasPrice_transport_error_aborts_witness :
    GasPrice failingTransport = .transportError "connection refused" 1 0 :=
  gasPrice_transport_error_aborts failingTransport 0 "connection refused" (by omega)
    (fun k hk => absurd hk (by omega)) rfl

/-- C7: every price `GasPrice` returns with a nil error is at most the
configured ceiling of 10^18 wei; an above-ceiling reading is never handed
back as a success. -/
theorem gasPrice_ok_within_ceiling (call : Nat → Except String Nat)
    (p c s : Nat) (h : GasPrice call = .ok p c s) : p ≤ maxAcceptedGasPrice :=
  gasPriceLoop_ok_le call 3 0 p c s h

/-- Closed instance of the C7 theorem at a transport returning 42 wei. -/
theorem gasPrice_ok_within_ceiling_witness :
    GasPrice (fun _ => .ok 42) = .ok 42 1 0 ∧ 42 ≤ maxAcceptedGasPrice :=
  ⟨rfl, gasPrice_ok_within_ceiling (fun _ => .ok 42) 42 1 0 rfl⟩

/-- C8: a too-high price on attempt 1 followed by an accepted price on
attempt 2 makes `GasPrice` return the attempt-2 value with a nil error
after exactly 2 calls (so no third RPC call) and 1 sleep. -/
theorem gasPrice_second_attempt (call : Nat → Except String Nat) (p0 p1 : Nat)
    (h0 : call 0 = .ok p0) (q0 : maxAcceptedGasPrice < p0)
    (h1 : call 1 = .ok p1) (q1 : p1 ≤ maxAcceptedGasPrice) :
    GasPrice call = .ok p1 2 1 := by
  unfold GasPrice
  rw [gasPriceLoop_retry call 0 2 p0 h0 q0]
  exact gasPriceLoop_accept call 1 2 p1 h1 q1

/-- Closed instance of the C8 theorem at the high-then-accepted transport. -/
theorem gasPrice_second_attempt_witness :
    GasPrice highThenOkTransport = .ok 42 2 1 :=
  gasPrice_second_attempt highThenOkTransport (maxAcceptedGasPrice + 1) 42
    rfl (Nat.lt_succ_self _) rfl (by decide)

/-- C9: the fallback call with the appended latest-block argument is issued
exactly when the primary call fails with an error whose message contains
"missing value", and when that fallback succeeds its estimate is returned
with a nil error, the primary failure not surfaced. -/
theorem gasEstimate_fallback_on_missing_value (t : EstimateTransport) :
    ((GasEstimate t).withBlockCalls = 1 ↔
      ∃ e, t.primary = .error e ∧ goStringContains e "missing value" = true) ∧
    (∀ e v, t.primary = .error e → goStringContains e "missing value" = true →
      t.withBlock = .ok v → GasEstimate t = ⟨.ok v, 1, 1⟩) := by
  obtain ⟨prim, wb⟩ := t
  constructor
  · cases prim with
    | error e =>
      by_cases hc : goStringContains e "missing value" = true
      · cases wb <;> simp [GasEstimate, GasEstimateWithBlock, hc]
      · cases wb <;> simp [GasEstimate, GasEstimateWithBlock, hc]
    | ok v => simp [GasEstimate]
  · intro e v hp hc hw
    cases hp
    cases hw
    simp [GasEstimate, GasEstimateWithBlock, hc]

/-- Closed instance of the C9 theorem: a missing-value rejection of the
primary call with a succeeding fallback returns the fallback's estimate. -/
theorem gasEstimate_fallback_on_missing_value_witness :
    GasEstimate missingValueTransport = ⟨.ok 21000, 1, 1⟩ :=
  (gasEstimate_fallback_on_missing_value missingValueTransport).2
    "missing value for required argument" 21000 rfl rfl rfl

/-- C10: a primary failure whose message does not contain "missing value"
is returned unchanged and the fallback call shape is never issued; when the
fallback is issued and itself fails, the fallback's own error is returned
unchanged; each call shape is issued at most once in every run, so neither
path retries. -/
theorem gasEstimate_error_passthrough (t : EstimateTransport) :
    (∀ e, t.primary = .error e → goStringContains e "missing value" = false →
      GasEstimate t = ⟨.error e, 1, 0⟩) ∧
    (∀ e eb, t.primary = .error e → goStringContains e "missing value" = true →
      t.withBlock = .error eb → GasEstimate t = ⟨.error eb, 1, 1⟩) ∧
    (GasEstimate t).primaryCalls = 1 ∧ (GasEstimate t).withBlockCalls ≤ 1 := by
  obtain ⟨prim, wb⟩ := t
  refine ⟨?_, ?_, ?_⟩
  · intro e hp hc
    cases hp
    simp [GasEstimate, hc]
  · intro e eb hp hc hw
    cases hp
    cases hw
    simp [GasEstimate, GasEstimateWithBlock, hc]
  · cases prim with
    | error e =>
      by_cases hc : goStringContains e "missing value" = true
      · cases wb <;> simp [GasEstimate, GasEstimateWithBlock, hc]
      · cases wb <;> simp [GasEstimate, GasEstimateWithBlock, hc]
    | ok v => simp [GasEstimate]

/-- Closed instance of the C10 theorem: an unrelated rejection passes
through with no fallback call, and a failing fallback surfaces its own
error. -/
theorem gasEstimate_error_passthrough_witness :
    GasEstimate revertingTransport = ⟨.error "execution reverted", 1, 0⟩ ∧
    GasEstimate doubleFailTransport = ⟨.error "out of bounds block", 1, 1⟩ :=
  ⟨(gasEstimate_error_passthrough revertingTransport).1 "execution reverted" rfl rfl,
   (gasEstimate_error_passthrough doubleFailTransport).2.1
     "missing value for required argument" "out of bounds block" rfl rfl rfl⟩

end DrepRpc
